import Mathlib

/-!
Shallow embedding of the LearnForge Concept Mastery Engine.

Data model from `src/types.ts` (MasteryLevel, Concept, MistakeRecord,
Question, QuestionType, AssessmentResult); the orchestration logic from
`src/components/LearningGame.tsx` (`handleSubmit`, `handleNext`); the
Reasoning Provider wrappers from `src/services/openaiService.ts` (the
Gemini variant in `src/services` is textually identical in the modelled
branches); the host's collection update from `src/App.tsx`
(`updateConcept`).

External effects are made explicit parameters: the provider's response to
a single call is passed in as a value (`ProviderResponse`), fresh
identifiers (`crypto.randomUUID()`) and clock reads (`Date.now()`) are
parameters, and each modelled operation additionally reports how many
provider calls it performed and whether it raised the mastery-complete
signal (the scheduled `onClose`).
-/

namespace LearnForge

/-- Numeric TS enum `MasteryLevel` from `src/types.ts`: LOCKED=0,
RECOGNITION=1, UNDERSTANDING=2, APPLICATION=3, REASONING=4. The TS enum is
number-valued and the code computes on it with `+` and `Math.min`, so levels
are embedded as `Nat` with named constants. -/
abbrev MasteryLevel := Nat

def MasteryLevel.LOCKED : Nat := 0

def MasteryLevel.RECOGNITION : Nat := 1

def MasteryLevel.UNDERSTANDING : Nat := 2

def MasteryLevel.APPLICATION : Nat := 3

def MasteryLevel.REASONING : Nat := 4

/-- `QuestionType` from `src/types.ts`. -/
inductive QuestionType where
  | MULTIPLE_CHOICE
  | SHORT_ANSWER
  | SCENARIO
  | OPEN_REASONING
deriving DecidableEq, Repr

/-- `MistakeRecord` from `src/types.ts`. -/
structure MistakeRecord where
  id : String
  timestamp : Nat
  question : String
  userAnswer : String
  correction : String
  misunderstandingType : String
deriving DecidableEq, Repr

/-- `Concept` from `src/types.ts`. -/
structure Concept where
  id : String
  title : String
  description : String
  dependencies : List String
  masteryLevel : MasteryLevel
  mistakes : List MistakeRecord
deriving DecidableEq, Repr

/-- `Question` from `src/types.ts`; the two optional TS fields are `Option`. -/
structure Question where
  id : String
  conceptId : String
  text : String
  type : QuestionType
  options : Option (List String)
  correctAnswerContext : Option String
deriving DecidableEq, Repr

/-- `AssessmentResult` from `src/types.ts`; the optional `conceptUpdate`
carries only a mastery level. -/
structure AssessmentResult where
  isCorrect : Bool
  explanation : String
  conceptUpdate : Option MasteryLevel
deriving DecidableEq, Repr

/-- The outcome of one Reasoning Provider call as the caller observes it:
either a parsed value, or a failure (the request threw, or the response
text was empty / unparsable — all of which land in the `catch` branch). -/
inductive ProviderResponse (α : Type) where
  | ok (value : α)
  | failure
deriving DecidableEq, Repr

/-- The per-concept session state held by `LearningGame`
(`src/components/LearningGame.tsx`): the displayed question, the typed
answer, the last assessment, the question-text history, the retry flag and
the concept as currently known to the component (the host writes updated
concepts back via `onUpdateConcept`). -/
structure SessionState where
  currentQuestion : Option Question
  userAnswer : String
  assessment : Option AssessmentResult
  questionHistory : List String
  needsRetry : Bool
  concept : Concept
deriving DecidableEq, Repr

/-- What one `handleSubmit` call produces: the new session state (with the
updated concept as passed to `onUpdateConcept`), whether the
mastery-complete signal fired (the code schedules `onClose` after a 2 s
delay exactly in that branch), and how many `evaluateAnswer` provider
calls were made. -/
structure SubmitResult where
  state : SessionState
  masteryComplete : Bool
  providerCalls : Nat
deriving DecidableEq, Repr

/-- The level actually used for question difficulty and progression:
`concept.masteryLevel === MasteryLevel.LOCKED ? 1 : concept.masteryLevel`
(this exact expression appears in `handleSubmit` and in
`generateQuestion`). -/
def effectiveLevel (lvl : MasteryLevel) : MasteryLevel :=
  if lvl = MasteryLevel.LOCKED then 1 else lvl

/-- The blank-answer test of `handleSubmit`'s guard `!userAnswer.trim()`:
a JS string trims to the empty (falsy) string exactly when every one of
its characters is whitespace, and the guard is embedded in that
character-wise form (Lean's own `String.trim` does not reduce in the
kernel, which would make the embedding impossible to evaluate on
concrete inputs). -/
def isBlank (s : String) : Bool :=
  s.data.all fun c => c.isWhitespace

/-- `handleSubmit` from `src/components/LearningGame.tsx` lines 33–85.
`evalResult` is what `evaluateAnswer` returned (the provider call is made
only past the blank-answer guard, hence `providerCalls`), `freshId` is the
`crypto.randomUUID()` drawn for a new mistake record and `now` is
`Date.now()`. -/
def handleSubmit (st : SessionState) (evalResult : AssessmentResult)
    (freshId : String) (now : Nat) : SubmitResult :=
  match st.currentQuestion with
  | none => ⟨st, false, 0⟩
  | some q =>
    if isBlank st.userAnswer then ⟨st, false, 0⟩
    else
      let result := evalResult
      let hist := st.questionHistory ++ [q.text]
      if result.isCorrect then
        let currentLevel := effectiveLevel st.concept.masteryLevel
        let nextLevel := min (currentLevel + 1) MasteryLevel.REASONING
        if currentLevel < MasteryLevel.REASONING then
          ⟨{ st with
              assessment := some result,
              questionHistory := hist,
              needsRetry := false,
              concept := { st.concept with masteryLevel := nextLevel } },
            false, 1⟩
        else
          ⟨{ st with
              assessment := some result,
              questionHistory := hist,
              needsRetry := false,
              concept := { st.concept with masteryLevel := MasteryLevel.REASONING } },
            true, 1⟩
      else
        ⟨{ st with
            assessment := some result,
            questionHistory := hist,
            needsRetry := true,
            concept := { st.concept with
              mistakes := st.concept.mistakes ++
                [⟨freshId, now, q.text, st.userAnswer, result.explanation,
                  "Conceptual"⟩] } },
          false, 1⟩

/-- Sample question used to instantiate hypotheses of the theorems below. -/
def sampleQuestion : Question :=
  ⟨"q1", "c1", "What is a closure?", QuestionType.SHORT_ANSWER, none,
    some "a function capturing its environment"⟩

/-- Sample concept at UNDERSTANDING with one prior mistake. -/
def sampleConcept : Concept :=
  ⟨"c1", "Closures", "A closure captures variables from its scope.",
    ["scopes"], MasteryLevel.UNDERSTANDING,
    [⟨"m0", 5, "old q", "old a", "old corr", "Conceptual"⟩]⟩

/-- Sample session state: question shown, non-blank answer pending. -/
def sampleState : SessionState :=
  ⟨some sampleQuestion, "it captures variables", none, ["earlier q"], false,
    sampleConcept⟩

/-- C1: across any `submit` call the concept's masteryLevel never
decreases: a correct answer can only raise it and an incorrect answer
leaves it unchanged. (The TS enum bounds the stored level by
REASONING = 4.) -/
theorem mastery_monotone_submit (st : SessionState) (r : AssessmentResult)
    (i : String) (t : Nat) (h : st.concept.masteryLevel ≤ MasteryLevel.REASONING) :
    st.concept.masteryLevel ≤ (handleSubmit st r i t).state.concept.masteryLevel := by
  unfold handleSubmit effectiveLevel
  simp only [MasteryLevel.LOCKED, MasteryLevel.REASONING] at *
  cases st.currentQuestion with
  | none => simp
  | some q =>
    simp only
    split_ifs <;> simp_all

theorem mastery_monotone_submit_witness :
    sampleState.concept.masteryLevel ≤
      (handleSubmit sampleState ⟨true, "ok", none⟩ "m1" 7).state.concept.masteryLevel :=
  mastery_monotone_submit sampleState ⟨true, "ok", none⟩ "m1" 7 (by decide)

/-- Sample concept still at LOCKED, as produced by extraction. -/
def lockedConcept : Concept :=
  ⟨"c2", "Recursion", "A definition in terms of itself.", [],
    MasteryLevel.LOCKED, []⟩

/-- Sample session state over the LOCKED concept with a pending answer. -/
def lockedState : SessionState :=
  ⟨some sampleQuestion, "base case and inductive step", none, [], false,
    lockedConcept⟩

/-- C2: `handleSubmit` applies exactly the §4.2 transition rule: with the
effective level L (LOCKED treated as 1), a correct result with
L < REASONING sets the level to `min (L + 1) REASONING` without the
mastery-complete signal; a correct result with L = REASONING keeps
REASONING and fires the mastery-complete signal; an incorrect result
leaves the level unchanged and sets `needsRetry`. -/
theorem submit_transition_rule (st : SessionState) (q : Question)
    (r : AssessmentResult) (i : String) (t : Nat)
    (hq : st.currentQuestion = some q) (ha : isBlank st.userAnswer = false) :
    (r.isCorrect = true →
      effectiveLevel st.concept.masteryLevel < MasteryLevel.REASONING →
      (handleSubmit st r i t).state.concept.masteryLevel =
        min (effectiveLevel st.concept.masteryLevel + 1) MasteryLevel.REASONING ∧
      (handleSubmit st r i t).masteryComplete = false) ∧
    (r.isCorrect = true →
      effectiveLevel st.concept.masteryLevel = MasteryLevel.REASONING →
      (handleSubmit st r i t).state.concept.masteryLevel = MasteryLevel.REASONING ∧
      (handleSubmit st r i t).masteryComplete = true) ∧
    (r.isCorrect = false →
      (handleSubmit st r i t).state.concept.masteryLevel = st.concept.masteryLevel ∧
      (handleSubmit st r i t).state.needsRetry = true ∧
      (handleSubmit st r i t).masteryComplete = false) := by
  unfold handleSubmit
  rw [hq]
  simp only [ha, Bool.false_eq_true, if_false]
  refine ⟨fun hc hlt => ?_, fun hc heq => ?_, fun hc => ?_⟩
  · simp [hc, if_pos hlt]
  · simp [hc, heq]
  · simp [hc]

theorem submit_transition_rule_witness :
    (handleSubmit sampleState ⟨true, "ok", none⟩ "m1" 7).state.concept.masteryLevel =
      min (effectiveLevel sampleState.concept.masteryLevel + 1) MasteryLevel.REASONING ∧
    (handleSubmit sampleState ⟨true, "ok", none⟩ "m1" 7).masteryComplete = false :=
  (submit_transition_rule sampleState sampleQuestion ⟨true, "ok", none⟩ "m1" 7
    rfl (by decide)).1 rfl (by decide)

/-- C3 counterexample: at LOCKED, one correct answer does NOT land on
RECOGNITION(1): the code treats LOCKED as effective level 1 and advances
to `min (1 + 1) 4 = 2` = UNDERSTANDING. -/
theorem locked_correct_not_recognition :
    lockedState.concept.masteryLevel = MasteryLevel.LOCKED ∧
    (handleSubmit lockedState ⟨true, "ok", none⟩ "m1" 7).state.concept.masteryLevel ≠
      MasteryLevel.RECOGNITION ∧
    (handleSubmit lockedState ⟨true, "ok", none⟩ "m1" 7).state.concept.masteryLevel =
      MasteryLevel.UNDERSTANDING := by
  decide

/-- C3 amended: for a concept at LOCKED, submitting one correct answer
results in masteryLevel UNDERSTANDING(2). -/
theorem locked_correct_understanding (st : SessionState) (q : Question)
    (r : AssessmentResult) (i : String) (t : Nat)
    (hq : st.currentQuestion = some q) (ha : isBlank st.userAnswer = false)
    (hl : st.concept.masteryLevel = MasteryLevel.LOCKED)
    (hc : r.isCorrect = true) :
    (handleSubmit st r i t).state.concept.masteryLevel =
      MasteryLevel.UNDERSTANDING := by
  unfold handleSubmit
  rw [hq]
  simp only [ha, Bool.false_eq_true, if_false]
  simp [hc, effectiveLevel, hl, MasteryLevel.LOCKED, MasteryLevel.REASONING,
    MasteryLevel.UNDERSTANDING]

theorem locked_correct_understanding_witness :
    (handleSubmit lockedState ⟨true, "ok", none⟩ "m1" 7).state.concept.masteryLevel =
      MasteryLevel.UNDERSTANDING :=
  locked_correct_understanding lockedState sampleQuestion ⟨true, "ok", none⟩
    "m1" 7 rfl (by decide) rfl rfl

/-- C4: an incorrect result appends exactly one MistakeRecord — category
"Conceptual", holding this question's text, the learner's answer and the
result's explanation — to the END of the concept's mistake sequence,
leaving all previously recorded mistakes unmodified and in order; a
correct result appends zero. -/
theorem submit_mistake_append (st : SessionState) (q : Question)
    (r : AssessmentResult) (i : String) (t : Nat)
    (hq : st.currentQuestion = some q) (ha : isBlank st.userAnswer = false) :
    (r.isCorrect = false →
      (handleSubmit st r i t).state.concept.mistakes =
        st.concept.mistakes ++
          [⟨i, t, q.text, st.userAnswer, r.explanation, "Conceptual"⟩]) ∧
    (r.isCorrect = true →
      (handleSubmit st r i t).state.concept.mistakes = st.concept.mistakes) := by
  unfold handleSubmit
  rw [hq]
  simp only [ha, Bool.false_eq_true, if_false]
  constructor
  · intro hc
    simp [hc]
  · intro hc
    simp only [hc]
    split
    · split <;> rfl
    · simp_all

theorem submit_mistake_append_witness :
    (handleSubmit sampleState ⟨false, "not quite", none⟩ "m1" 7).state.concept.mistakes =
      sampleState.concept.mistakes ++
        [⟨"m1", 7, sampleQuestion.text, sampleState.userAnswer, "not quite",
          "Conceptual"⟩] :=
  (submit_mistake_append sampleState sampleQuestion ⟨false, "not quite", none⟩
    "m1" 7 rfl (by decide)).1 rfl

/-- The parsed payload of a successful `generateQuestion` provider
response (`src/services/openaiService.ts` lines 104–112): the JSON object
spread into the returned Question next to the freshly drawn id and the
owning concept's id. -/
structure QuestionPayload where
  text : String
  type : QuestionType
  options : Option (List String)
  correctAnswerContext : Option String
deriving DecidableEq, Repr

/-- `generateQuestion` from `src/services/openaiService.ts` lines 66–125
(and the identical Gemini variant): on a successful, non-empty provider
response the parsed payload is returned under a fresh id with the
concept's id; on failure (throw or empty response) the deterministic
fallback question is returned. -/
def generateQuestion (concept : Concept) (freshId : String)
    (response : ProviderResponse QuestionPayload) : Question :=
  match response with
  | ProviderResponse.ok data =>
    ⟨freshId, concept.id, data.text, data.type, data.options,
      data.correctAnswerContext⟩
  | ProviderResponse.failure =>
    ⟨"error", concept.id, "Explain the concept of " ++ concept.title,
      QuestionType.SHORT_ANSWER, none, some concept.description⟩

/-- `evaluateAnswer` from `src/services/openaiService.ts` lines 130–176
(and the identical Gemini variant): a successful response is parsed and
returned as-is; on failure the fixed apologetic incorrect result is
returned. -/
def evaluateAnswer (response : ProviderResponse AssessmentResult) :
    AssessmentResult :=
  match response with
  | ProviderResponse.ok r => r
  | ProviderResponse.failure =>
    ⟨false, "An error occurred during evaluation. Please try again.", none⟩

/-- Character test of the emoji-stripping regex in
`generateUnifiedSummary` (`src/services/openaiService.ts` line 252): the
six Unicode ranges of the fixed filter. -/
def isEmojiChar (c : Char) : Bool :=
  decide ((0x1F600 ≤ c.toNat ∧ c.toNat ≤ 0x1F64F) ∨
    (0x1F300 ≤ c.toNat ∧ c.toNat ≤ 0x1F5FF) ∨
    (0x1F680 ≤ c.toNat ∧ c.toNat ≤ 0x1F6FF) ∨
    (0x1F1E0 ≤ c.toNat ∧ c.toNat ≤ 0x1F1FF) ∨
    (0x2600 ≤ c.toNat ∧ c.toNat ≤ 0x26FF) ∨
    (0x2700 ≤ c.toNat ∧ c.toNat ≤ 0x27BF))

/-- The `summary.replace(emojiRegex, '')` post-processing step. -/
def stripEmojis (s : String) : String :=
  ⟨s.data.filter fun c => !isEmojiChar c⟩

/-- `generateUnifiedSummary` from `src/services/openaiService.ts` lines
181–259: an empty concept list short-circuits to the fixed message with
zero provider calls; otherwise exactly one provider call is made, whose
missing content falls back to a default document, whose text is
emoji-stripped, and whose failure yields the fixed error document. The
second component counts provider calls. -/
def generateUnifiedSummary (concepts : List Concept)
    (response : ProviderResponse (Option String)) : String × Nat :=
  if concepts.length = 0 then ("No concepts to summarize.", 0)
  else
    match response with
    | ProviderResponse.ok content =>
      (stripEmojis (content.getD "# Summary\n\nCould not generate summary."), 1)
    | ProviderResponse.failure => ("# Error\n\nFailed to generate summary.", 1)

/-- C9: submitting a blank (empty or whitespace-only) answer is a local
no-op: the session state — history, mistakes, mastery level, flags — is
returned unchanged, no mastery-complete signal fires, and zero provider
calls are made. -/
theorem submit_blank_noop (st : SessionState) (r : AssessmentResult)
    (i : String) (t : Nat) (h : isBlank st.userAnswer = true) :
    handleSubmit st r i t = ⟨st, false, 0⟩ := by
  unfold handleSubmit
  cases st.currentQuestion <;> simp [h]

/-- Sample state with a whitespace-only pending answer. -/
def blankState : SessionState :=
  ⟨some sampleQuestion, "  ", none, ["earlier q"], false, sampleConcept⟩

theorem submit_blank_noop_witness :
    handleSubmit blankState ⟨true, "ok", none⟩ "m1" 7 = ⟨blankState, false, 0⟩ :=
  submit_blank_noop blankState ⟨true, "ok", none⟩ "m1" 7 (by decide)

/-- C6: when the provider call inside `generateQuestion` fails, the caller
still receives a usable Question: text "Explain the concept of " ++ title,
type SHORT_ANSWER, the concept's description as correctness context, and
the fallback sentinel id "error". -/
theorem generateQuestion_fallback (concept : Concept) (freshId : String) :
    (generateQuestion concept freshId ProviderResponse.failure).text =
      "Explain the concept of " ++ concept.title ∧
    (generateQuestion concept freshId ProviderResponse.failure).type =
      QuestionType.SHORT_ANSWER ∧
    (generateQuestion concept freshId ProviderResponse.failure).correctAnswerContext =
      some concept.description ∧
    (generateQuestion concept freshId ProviderResponse.failure).id = "error" :=
  ⟨rfl, rfl, rfl, rfl⟩

/-- C7: when the provider call inside `evaluateAnswer` fails, `submit`
receives the fixed apologetic incorrect result, and — the result being
incorrect — still appends the corresponding MistakeRecord to the
concept's mistake sequence. -/
theorem evaluateAnswer_failure_records_mistake (st : SessionState)
    (q : Question) (i : String) (t : Nat)
    (hq : st.currentQuestion = some q) (ha : isBlank st.userAnswer = false) :
    evaluateAnswer ProviderResponse.failure =
      ⟨false, "An error occurred during evaluation. Please try again.", none⟩ ∧
    (handleSubmit st (evaluateAnswer ProviderResponse.failure) i t).state.concept.mistakes =
      st.concept.mistakes ++
        [⟨i, t, q.text, st.userAnswer,
          "An error occurred during evaluation. Please try again.",
          "Conceptual"⟩] := by
  refine ⟨rfl, ?_⟩
  unfold handleSubmit evaluateAnswer
  rw [hq]
  simp [ha]

theorem evaluateAnswer_failure_records_mistake_witness :
    evaluateAnswer ProviderResponse.failure =
      ⟨false, "An error occurred during evaluation. Please try again.", none⟩ ∧
    (handleSubmit sampleState (evaluateAnswer ProviderResponse.failure)
        "m1" 7).state.concept.mistakes =
      sampleState.concept.mistakes ++
        [⟨"m1", 7, sampleQuestion.text, sampleState.userAnswer,
          "An error occurred during evaluation. Please try again.",
          "Conceptual"⟩] :=
  evaluateAnswer_failure_records_mistake sampleState sampleQuestion "m1" 7
    rfl (by decide)

/-- C8: on an empty concept list the summary generator returns exactly the
fixed string "No concepts to summarize." and performs zero provider calls
(second component), for every possible provider behaviour. -/
theorem summary_empty_no_provider_call
    (response : ProviderResponse (Option String)) :
    generateUnifiedSummary [] response = ("No concepts to summarize.", 0) :=
  rfl

/-- The duplicate-avoidance loop of `handleNext`
(`src/components/LearningGame.tsx` lines 93–102): while the freshly
generated question's text is already in the session history and fewer
than `maxAttempts` regenerations have happened, request another question.
`gen k` is the question produced by the (k+1)-th `generateQuestion` call
of this `handleNext` invocation. `fuel` always equals
`maxAttempts - attempts` and exists only to make the recursion
structural; the loop exits on `attempts < maxAttempts` exactly as the
`while` condition does. -/
def nextLoop (questionHistory : List String) (gen : Nat → Question)
    (maxAttempts : Nat) : Nat → Nat → Question → Question
  | 0, _, newQuestion => newQuestion
  | fuel + 1, attempts, newQuestion =>
    if questionHistory.contains newQuestion.text ∧ attempts < maxAttempts then
      nextLoop questionHistory gen maxAttempts fuel (attempts + 1)
        (gen (attempts + 1))
    else newQuestion

/-- `handleNext` from `src/components/LearningGame.tsx` lines 87–106:
generate a question, then retry while it duplicates the history, with
`maxAttempts = 5`. -/
def handleNext (questionHistory : List String) (gen : Nat → Question) :
    Question :=
  nextLoop questionHistory gen 5 5 0 (gen 0)

/-- Loop invariant behind C5: if the loop result still duplicates the
history, then every generation from the current attempt on duplicated it
and the result is the last (5th-regeneration) question. -/
theorem nextLoop_all_dup (hist : List String) (gen : Nat → Question) :
    ∀ fuel attempts, attempts + fuel = 5 →
      hist.contains (nextLoop hist gen 5 fuel attempts (gen attempts)).text = true →
      (∀ k, attempts ≤ k → k ≤ 5 → hist.contains (gen k).text = true) ∧
      nextLoop hist gen 5 fuel attempts (gen attempts) = gen 5 := by
  intro fuel
  induction fuel with
  | zero =>
    intro attempts hsum hdup
    have h5 : attempts = 5 := by omega
    subst h5
    refine ⟨?_, by simp only [nextLoop]⟩
    intro k hk1 hk2
    have hk : k = 5 := by omega
    subst hk
    simpa only [nextLoop] using hdup
  | succ n ih =>
    intro attempts hsum hdup
    by_cases hd : hist.contains (gen attempts).text = true
    · have hlt : attempts < 5 := by omega
      simp only [nextLoop] at hdup ⊢
      rw [if_pos ⟨hd, hlt⟩] at hdup ⊢
      obtain ⟨hall, heq⟩ := ih (attempts + 1) (by omega) hdup
      refine ⟨?_, heq⟩
      intro k hk1 hk2
      rcases Nat.lt_or_ge attempts k with h | h
      · exact hall k (by omega) hk2
      · have hk : k = attempts := by omega
        subst hk
        exact hd
    · simp only [nextLoop] at hdup
      rw [if_neg] at hdup
      · exact absurd hdup hd
      · intro hcond
        exact hd hcond.1

/-- C5: `handleNext` returns a question whose text duplicates the session
history only when every one of its generation attempts — the initial
request and all 5 bounded regenerations — produced a duplicate, in which
case it gives up and returns the last-generated question `gen 5`. -/
theorem next_dup_only_after_bound (hist : List String) (gen : Nat → Question)
    (hdup : hist.contains (handleNext hist gen).text = true) :
    (∀ k, k ≤ 5 → hist.contains (gen k).text = true) ∧
    handleNext hist gen = gen 5 := by
  have h := nextLoop_all_dup hist gen 5 0 (by omega)
    (by simpa [handleNext] using hdup)
  exact ⟨fun k hk => h.1 k (Nat.zero_le k) hk,
    by simpa [handleNext] using h.2⟩

/-- Question whose text always duplicates the witness history below. -/
def dupQuestion : Question :=
  ⟨"q9", "c1", "dup", QuestionType.SHORT_ANSWER, none, none⟩

theorem next_dup_only_after_bound_witness :
    (∀ k, k ≤ 5 →
      (["dup"] : List String).contains ((fun _ => dupQuestion) k).text = true) ∧
    handleNext ["dup"] (fun _ => dupQuestion) = (fun _ : Nat => dupQuestion) 5 :=
  next_dup_only_after_bound ["dup"] (fun _ => dupQuestion) (by decide)

/-- `updateConcept` from `src/App.tsx` lines 29–36: the host applies an
updated concept to its collection by mapping over it and replacing every
concept whose id equals the updated concept's id. -/
def updateConcept (concepts : List Concept) (updated : Concept) :
    List Concept :=
  concepts.map fun c => if c.id = updated.id then updated else c

/-- C10: `updateConcept` is a frame: the collection's length is unchanged
and, position by position, an entry whose id differs from the updated
concept's id is exactly unchanged while an entry whose id matches is
replaced by the updated value. -/
theorem updateConcept_frame (concepts : List Concept) (updated : Concept) :
    (updateConcept concepts updated).length = concepts.length ∧
    ∀ i : Nat, (updateConcept concepts updated)[i]? =
      (concepts[i]?).map fun c => if c.id = updated.id then updated else c := by
  constructor
  · simp [updateConcept]
  · intro i
    simp [updateConcept]

end LearnForge
